import Mathlib

/-!
Shallow embedding of the powr-test-automation end-to-end suite: screenshot
utilities (both the current and the legacy copy), authentication helpers, the
global-setup login/CAPTCHA orchestration, the pricing-extraction fallback
cascade, and the hex-to-rgb colour conversion, together with theorems settling
the specification claims about them.
-/

namespace PowrSuite

/-! ### Generic string helpers (JS semantics) -/

/-- JS `String.prototype.includes`: substring containment. -/
def jsIncludes (s sub : String) : Bool :=
  (List.range (s.data.length + 1)).any fun i => sub.data.isPrefixOf (s.data.drop i)

/-- JS `String.prototype.toLowerCase` for the ASCII configuration values read
here. -/
def jsToLower (s : String) : String := String.mk (s.data.map Char.toLower)

/-- JS `String.prototype.trim` over the ASCII whitespace the element texts
handled here can contain. -/
def jsTrim (s : String) : String :=
  String.mk (((s.data.dropWhile Char.isWhitespace).reverse.dropWhile
    Char.isWhitespace).reverse)

/-! ### Screenshot utilities
(`src/src/utils/screenshot-utils.ts` is the current copy,
`src/utils/screenshot-utils.ts` the legacy one) -/

/-- The three values of the `ScreenshotMode` constant object (identical in both
copies). -/
inductive ScreenshotMode where
  | disabled
  | enabled
  | failuresOnly
deriving DecidableEq, Repr

/-- `shouldTakeScreenshot` (the two copies compute the same table), with the
process-wide mode made an explicit argument. -/
def shouldTakeScreenshot (mode : ScreenshotMode) (isFailure : Bool) : Bool :=
  match mode with
  | .disabled => false
  | .failuresOnly => isFailure
  | .enabled => true

/-- Classification of `process.env.SCREENSHOT_MODE?.toLowerCase()` (`none` =
variable unset) done by the current `getScreenshotMode`; every unrecognised or
missing value falls through to `enabled`. -/
def parseScreenshotMode (env : Option String) : ScreenshotMode :=
  let modeFromEnv := env.map jsToLower
  if modeFromEnv = some "disabled" then .disabled
  else if modeFromEnv = some "failures_only" then .failuresOnly
  else if modeFromEnv = some "enabled" then .enabled
  else .enabled

/-- Legacy `getScreenshotMode` (`src/utils/screenshot-utils.ts`): re-reads the
environment on every call; there is no cache. Its `else` arm returns
`enabled`. -/
def getScreenshotModeLegacy (env : Option String) : ScreenshotMode :=
  let mode := env.map jsToLower
  if mode = some "disabled" then .disabled
  else if mode = some "failures_only" then .failuresOnly
  else .enabled

/-- Current `getScreenshotMode` (`src/src/utils/screenshot-utils.ts`): the
module-level cache `currentScreenshotMode` is threaded explicitly; the call
returns its result together with the updated cache. -/
def getScreenshotModeCached (cache : Option ScreenshotMode) (env : Option String) :
    ScreenshotMode × Option ScreenshotMode :=
  match cache with
  | some m => (m, some m)
  | none =>
    let m := parseScreenshotMode env
    (m, some m)

/-- A sequence of calls to the cached `getScreenshotMode`; the list holds the
environment value visible to each successive call. -/
def runScreenshotModeCalls (cache : Option ScreenshotMode) :
    List (Option String) → List ScreenshotMode
  | [] => []
  | e :: es =>
    let step := getScreenshotModeCached cache e
    step.1 :: runScreenshotModeCalls step.2 es

/-- The same call sequence against the stateless legacy `getScreenshotMode`. -/
def runScreenshotModeCallsLegacy (envs : List (Option String)) : List ScreenshotMode :=
  envs.map getScreenshotModeLegacy

/-- Observable outcome of one `takeScreenshot` call: the returned value
(`Except.error` = the promise rejects, i.e. the error propagates), whether the
`page.screenshot` capture primitive was invoked, and whether a capture error
was caught and logged. -/
structure ShotOutcome where
  result : Except String (Option String)
  captureInvoked : Bool
  errorLogged : Bool
deriving Repr

/-- Current `takeScreenshot` (`src/src/utils/screenshot-utils.ts`). `genPath`
is what `generateScreenshotPath` produced (`none` models its directory-creation
failure), `capture` the behaviour of the `page.screenshot` primitive. A capture
error is caught, logged, and turned into an `undefined` return. -/
def takeScreenshot (mode : ScreenshotMode) (isFailure : Bool)
    (genPath : Option String) (capture : Except String Unit) : ShotOutcome :=
  if shouldTakeScreenshot mode isFailure = false then
    ⟨Except.ok none, false, false⟩
  else
    match genPath with
    | none => ⟨Except.ok none, false, false⟩
    | some p =>
      match capture with
      | Except.ok () => ⟨Except.ok (some p), true, false⟩
      | Except.error _ => ⟨Except.ok none, true, true⟩

/-- Legacy `getScreenshotPath` gate (`src/utils/screenshot-utils.ts`): returns
`undefined` exactly when `shouldTakeScreenshot` is false, otherwise the
generated path. -/
def getScreenshotPathLegacyGate (mode : ScreenshotMode) (isFailure : Bool)
    (generated : String) : Option String :=
  if shouldTakeScreenshot mode isFailure then some generated else none

/-- Legacy `takeScreenshot` (`src/utils/screenshot-utils.ts`): there is no
try/catch around `page.screenshot`, so a capture error propagates to the
caller. -/
def takeScreenshotLegacy (mode : ScreenshotMode) (isFailure : Bool)
    (generated : String) (capture : Except String Unit) : ShotOutcome :=
  match getScreenshotPathLegacyGate mode isFailure generated with
  | none => ⟨Except.ok none, false, false⟩
  | some p =>
    match capture with
    | Except.ok () => ⟨Except.ok (some p), true, false⟩
    | Except.error e => ⟨Except.error e, true, false⟩

/-! ### Screenshot path generation -/

/-- Characters kept by the current sanitiser: the JS class `[a-zA-Z0-9_-]`. -/
def isSafeNameChar (c : Char) : Bool :=
  ('a' ≤ c && c ≤ 'z') || ('A' ≤ c && c ≤ 'Z') || ('0' ≤ c && c ≤ '9') ||
    c = '_' || c = '-'

/-- `replace(/[^a-zA-Z0-9_-]/g, '_')` of the current `generateScreenshotPath`. -/
def sanitizeBaseName (s : String) : String :=
  String.mk (s.data.map fun c => if isSafeNameChar c then c else '_')

/-- `toISOString().replace(/[:.]/g, '-')`, applied to the raw timestamp text
(the `new Date().toISOString()` value is an input of the embedding). -/
def sanitizeTimestamp (s : String) : String :=
  String.mk (s.data.map fun c => if c = ':' || c = '.' then '-' else c)

/-- Index of the last `'.'` of a character list, if any. -/
def lastDotIdx : List Char → Option Nat
  | [] => none
  | c :: rest =>
    match lastDotIdx rest with
    | some i => some (i + 1)
    | none => if c = '.' then some 0 else none

/-- `path.extname` for the separator-free base names passed by the callers:
the suffix from the last `'.'`, unless that dot is the leading character
(dot-files carry no extension). -/
def jsExtname (s : String) : String :=
  match lastDotIdx s.data with
  | none => ""
  | some 0 => ""
  | some i => String.mk (s.data.drop i)

/-- `path.basename(s, path.extname(s))` for the separator-free base names
passed by the callers: the name with its `jsExtname` suffix removed. -/
def jsBasenameNoExt (s : String) : String :=
  match lastDotIdx s.data with
  | none => s
  | some 0 => s
  | some i => String.mk (s.data.take i)

/-- Current `generateScreenshotPath` (`src/src/utils/screenshot-utils.ts`),
pure core: the working directory and the `toISOString()` text are inputs; the
side effect of creating the directory (whose failure yields `undefined`) is
outside the path arithmetic modelled here. `path.join` on these separator-free
segments is concatenation with `'/'`. -/
def generateScreenshotPath (cwd baseFileName isoNow : String) : String :=
  let screenshotsDir := cwd ++ "/screenshots"
  let timestamp := sanitizeTimestamp isoNow
  let name := sanitizeBaseName (jsBasenameNoExt baseFileName)
  let ext := if jsExtname baseFileName = "" then ".png" else jsExtname baseFileName
  screenshotsDir ++ "/" ++ (name ++ "-" ++ timestamp ++ ext)

/-- Word characters of the JS `\w` class. -/
def isWordChar (c : Char) : Bool :=
  ('a' ≤ c && c ≤ 'z') || ('A' ≤ c && c ≤ 'Z') || ('0' ≤ c && c ≤ '9') || c = '_'

/-- The `/\.\w+$/ ` match used by the legacy `getScreenshotPath`: the trailing
`.<word-chars>` suffix when the characters after the last `'.'` are one or
more word characters, `none` otherwise. -/
def legacyExtMatch (s : String) : Option String :=
  let rev := s.data.reverse
  let w := rev.takeWhile isWordChar
  if w.isEmpty then none
  else
    match rev.drop w.length with
    | '.' :: _ => some (String.mk ('.' :: w.reverse))
    | _ => none

/-- `fileName.replace(/\.\w+$/, '')` of the legacy `getScreenshotPath`:
the matched suffix (if any) is removed, and nothing else is altered — in
particular the remaining name is NOT sanitised. -/
def legacyStripExt (s : String) : String :=
  match legacyExtMatch s with
  | none => s
  | some e => String.mk (s.data.take (s.data.length - e.data.length))

/-- Legacy `getScreenshotPath` (`src/utils/screenshot-utils.ts`), pure path
core (the `shouldTakeScreenshot` gate is `getScreenshotPathLegacyGate`):
`name` keeps the original characters, `ext` falls back to `.png`. -/
def getScreenshotPathLegacyPath (cwd fileName isoNow : String) : String :=
  let screenshotsDir := cwd ++ "/screenshots"
  let timestamp := sanitizeTimestamp isoNow
  let name := legacyStripExt fileName
  let ext := (legacyExtMatch fileName).getD ".png"
  screenshotsDir ++ "/" ++ (name ++ "-" ++ timestamp ++ ext)

/-! ### Authentication helpers (`src/utils/auth-helper.ts`) -/

/-- `verifyAuthentication`: the navigation/probing outcome is the input.
`none` models any throw inside the `try` block (navigation, redirect wait,
screenshot probe); `some url` is the URL the page reports afterwards. The
source computes `!url.includes('/signin') && !url.includes('/sign_in')`. -/
def verifyAuthentication (probe : Option String) : Bool :=
  match probe with
  | none => false
  | some url => !(jsIncludes url "/signin") && !(jsIncludes url "/sign_in")

/-- The `authCheck` fixture (`src/src/fixtures.ts`): the navigation outcome is
the input. `none` models a throw of `page.goto`; `some (status, url)` models a
completed navigation with `response?.status()` (`none` when the response is
missing) and the reported page URL. The source returns true only under
`status && status < 400 && !isOnLoginPage` — JS truthiness makes a missing or
zero status falsy — and returns false from its `catch`. -/
def authCheck (probe : Option (Option Nat × String)) : Bool :=
  match probe with
  | none => false
  | some (status, url) =>
    let isOnLoginPage := jsIncludes url "/signin" || jsIncludes url "/sign_in"
    match status with
    | none => false
    | some s => if s ≠ 0 ∧ s < 400 ∧ isOnLoginPage = false then true else false

/-- Environment of one `ensureAuthenticated` run: whether the session file
exists, what `verifyAuthentication` reports for the stored session, what
`login` returns, and what the post-login double-check verification reports. -/
structure AuthEnv where
  hasStored : Bool
  storedVerify : Bool
  loginResult : Bool
  postLoginVerify : Bool

/-- The externally visible steps of `ensureAuthenticated`. -/
inductive AuthStep where
  | verifiedStoredSession
  | attemptedLogin
  | savedAuthState
  | warnedPostLoginVerify
deriving DecidableEq, Repr

/-- The fresh-login tail of `ensureAuthenticated`: run `login`; on success save
the state, re-verify (only a warning when that fails) and return the login
outcome; on failure return `false`. -/
def loginAndFinish (e : AuthEnv) : Bool × List AuthStep :=
  if e.loginResult then
    (e.loginResult,
      [AuthStep.attemptedLogin, AuthStep.savedAuthState] ++
        (if e.postLoginVerify then [] else [AuthStep.warnedPostLoginVerify]))
  else (false, [AuthStep.attemptedLogin])

/-- `ensureAuthenticated` (`src/utils/auth-helper.ts`): returns its boolean
result together with the trace of steps taken. -/
def ensureAuthenticated (e : AuthEnv) : Bool × List AuthStep :=
  if e.hasStored then
    if e.storedVerify then (true, [AuthStep.verifiedStoredSession])
    else
      let tail := loginAndFinish e
      (tail.1, AuthStep.verifiedStoredSession :: tail.2)
  else loginAndFinish e

/-! ### Global-setup login orchestration (`globalSetup`, stealth copy) -/

/-- Environment of the login/CAPTCHA phase of `globalSetup`: the result of the
initial `loginPage.login`, whether `isCaptchaChallengeVisible` finds a
challenge iframe, the result of the post-wait `loginPage.isLoggedIn`
re-verification, and the configured `CAPTCHA_WAIT_TIMEOUT`. -/
structure GlobalSetupEnv where
  loginSuccess : Bool
  captchaVisible : Bool
  postWaitLoggedIn : Bool
  captchaWaitTimeout : Nat

/-- The login/CAPTCHA phase of `globalSetup` (`src/unnamed/part_000`): returns
the outcome (`Except.error` models the thrown `Error`) together with the total
milliseconds spent blocking in the manual CAPTCHA `page.waitForTimeout`. -/
def globalSetupLoginPhase (e : GlobalSetupEnv) : Except String Unit × Nat :=
  if e.loginSuccess then (Except.ok (), 0)
  else if e.captchaVisible then
    if e.postWaitLoggedIn then (Except.ok (), e.captchaWaitTimeout)
    else (Except.error "login failed after manual CAPTCHA wait", e.captchaWaitTimeout)
  else (Except.error "login failed without obvious CAPTCHA", 0)

/-! ### Pricing extraction (`PricingPage`, current copy) -/

/-- A `{name, price}` pricing entry. -/
structure PricingEntry where
  name : String
  price : String
deriving DecidableEq, Repr

/-- One pricing card as the structured tier observes it: for each entry of the
fixed name/price/cent candidate selector lists, `none` when the selector
matches nothing inside the card (`count() = 0`) and `some t` when it matches
with first-match `textContent` `t`. -/
structure Card where
  nameTexts : List (Option String)
  priceTexts : List (Option String)
  centTexts : List (Option String)
deriving DecidableEq, Repr

/-- The inner candidate loop shared by the name/price/cent extraction of
`getStructuredPricingData`: the first selector that matches (`count > 0`) and
whose trimmed text is non-empty wins; otherwise the loop leaves the empty
string behind (every assignment it makes without breaking trims to `""`). -/
def resolveText : List (Option String) → String
  | [] => ""
  | none :: rest => resolveText rest
  | some t :: rest => if jsTrim t = "" then resolveText rest else jsTrim t

/-- Per-card extraction of `getStructuredPricingData`: an entry is produced
only when both name and price are non-empty, and the first non-empty cent text
is appended to the price. -/
def extractCard (c : Card) : Option PricingEntry :=
  let name := resolveText c.nameTexts
  let price := resolveText c.priceTexts
  if name ≠ "" ∧ price ≠ "" then
    some { name := name, price := price ++ resolveText c.centTexts }
  else none

/-- `getStructuredPricingData`: each card selector of
`pricingCardSelectors` is mapped to the list of cards it matches; selectors
are tried in order, and the loop breaks at the first selector whose matched
cards yield a non-empty extraction (in the source, `results` only ever
receives entries in the iteration that also breaks, so the break condition
`results.length > 0` is exactly "this selector extracted something"). -/
def getStructuredPricingData : List (List Card) → List PricingEntry
  | [] => []
  | cards :: rest =>
    if cards.length > 0 then
      let extracted := cards.filterMap extractCard
      if extracted.length > 0 then extracted
      else getStructuredPricingData rest
    else getStructuredPricingData rest

/-- `getStructuredPricingData` instrumented with the number of card selectors
the loop attempts (runs the `cards.count()` query for): every iteration
attempts one selector, and the loop breaks inside the iteration whose
extraction is non-empty, so selectors after it are never attempted. -/
def getStructuredPricingDataT : List (List Card) → List PricingEntry × Nat
  | [] => ([], 0)
  | cards :: rest =>
    if cards.length > 0 then
      let extracted := cards.filterMap extractCard
      if extracted.length > 0 then (extracted, 1)
      else
        let t := getStructuredPricingDataT rest
        (t.1, t.2 + 1)
    else
      let t := getStructuredPricingDataT rest
      (t.1, t.2 + 1)

/-- The three pricing-extraction tiers, for invocation traces. -/
inductive Tier where
  | structured
  | sectionBased
  | textBased
deriving DecidableEq, Repr

/-- `getSocialFeedPricingWithFallbacks`: the structured tier is computed from
its card model; the section-based and text-based tiers enter as the result
lists they would return (their internal scraping is irrelevant to the dispatch
behaviour the claims are about). The second component records which tiers the
call invoked, in order: the structured tier always runs, each later tier runs
only while `results` is still empty. -/
def getSocialFeedPricingWithFallbacks (cardCandidates : List (List Card))
    (sectionResults textResults : List PricingEntry) :
    List PricingEntry × List Tier :=
  let structured := getStructuredPricingData cardCandidates
  let results := if structured.length > 0 then structured else []
  if results.length = 0 then
    let results2 := if sectionResults.length > 0 then sectionResults else results
    if results2.length = 0 then
      let results3 := if textResults.length > 0 then textResults else results2
      (results3, [Tier.structured, Tier.sectionBased, Tier.textBased])
    else (results2, [Tier.structured, Tier.sectionBased])
  else (results, [Tier.structured])

/-! ### Hex-to-rgb conversion (`hexToRgb` in the form-builder page object) -/

/-- Hex digits accepted by JS `parseInt(_, 16)`. -/
def isHexDigit (c : Char) : Bool :=
  ('0' ≤ c && c ≤ '9') || ('a' ≤ c && c ≤ 'f') || ('A' ≤ c && c ≤ 'F')

/-- Numeric value of a hex digit. -/
def hexDigitVal (c : Char) : Nat :=
  if '0' ≤ c && c ≤ '9' then c.toNat - '0'.toNat
  else if 'a' ≤ c && c ≤ 'f' then c.toNat - 'a'.toNat + 10
  else if 'A' ≤ c && c ≤ 'F' then c.toNat - 'A'.toNat + 10
  else 0

/-- Value of a hex-digit list, most significant first. -/
def hexListToNat (cs : List Char) : Nat :=
  cs.foldl (fun acc c => acc * 16 + hexDigitVal c) 0

/-- JS `parseInt(s, 16)`: an optional `0x`/`0X` prefix, then the longest
hex-digit run; `none` models `NaN` (no digits). Sign and leading-whitespace
handling of `parseInt` never arise for the colour strings passed here. -/
def jsParseIntHex (s : String) : Option Nat :=
  let cs :=
    match s.data with
    | c0 :: c1 :: rest =>
      if c0 = '0' ∧ (c1 = 'x' ∨ c1 = 'X') then rest else s.data
    | _ => s.data
  let ds := cs.takeWhile isHexDigit
  if ds.isEmpty then none else some (hexListToNat ds)

/-- `hex.replace('#', '')`: JS `replace` with a string pattern removes the
FIRST occurrence of `'#'`, wherever it sits — not only a leading one. -/
def removeFirstHash : List Char → List Char
  | [] => []
  | c :: rest => if c = '#' then rest else c :: removeFirstHash rest

/-- `if (hex.length === 3) hex = hex.split('').map(c => c + c).join('')`. -/
def expand3 (cs : List Char) : List Char :=
  if cs.length = 3 then cs.flatMap (fun c => [c, c]) else cs

/-- `hexToRgb` of the form-builder page object: total on strings. A `NaN`
from `parseInt` behaves as `0` under the JS shift-and-mask arithmetic
(`(NaN >> k) & 255 === 0`), which `Option.getD 0` reproduces; for the
6-character values that reach `parseInt`, `>> 16 & 255`, `>> 8 & 255` and
`& 255` are division and remainder by powers of two. -/
def hexToRgb (hex : String) : String :=
  let h := expand3 (removeFirstHash hex.data)
  if h.length ≠ 6 then "rgb(0, 0, 0)"
  else
    let bigint := (jsParseIntHex (String.mk h)).getD 0
    let r := bigint / 65536 % 256
    let g := bigint / 256 % 256
    let b := bigint % 256
    "rgb(" ++ toString r ++ ", " ++ toString g ++ ", " ++ toString b ++ ")"

/-- Claim C10's reading of the conversion, for comparison with the source's
`hexToRgb`: it strips only a LEADING `'#'`, then expands a 3-character code,
and returns black for every other length. -/
def hexToRgbClaim (hex : String) : String :=
  let stripped :=
    match hex.data with
    | '#' :: rest => rest
    | other => other
  let h := expand3 stripped
  if h.length ≠ 6 then "rgb(0, 0, 0)"
  else
    let bigint := (jsParseIntHex (String.mk h)).getD 0
    let r := bigint / 65536 % 256
    let g := bigint / 256 % 256
    let b := bigint % 256
    "rgb(" ++ toString r ++ ", " ++ toString g ++ ", " ++ toString b ++ ")"

/-! ### Shared helper lemmas -/

/-- Two strings with the same character data are equal. -/
theorem strOfDataEq (a b : String) (h : a.data = b.data) : a = b := by
  cases a; cases b; cases h; rfl

/-- `takeWhile` keeps a list all of whose elements satisfy the predicate. -/
theorem takeWhileOfAll {p : Char → Bool} (cs : List Char)
    (h : ∀ c ∈ cs, p c = true) : cs.takeWhile p = cs :=
  List.takeWhile_eq_self_iff.mpr h

/-! ### Claim theorems -/

/-- Claim C6: `shouldTakeScreenshot` realises exactly the mode table of the
specification: never in `disabled` mode, exactly the failure flag in
`failures_only` mode, always in `enabled` mode. -/
theorem shouldTakeScreenshot_table :
    shouldTakeScreenshot ScreenshotMode.disabled false = false ∧
    shouldTakeScreenshot ScreenshotMode.disabled true = false ∧
    shouldTakeScreenshot ScreenshotMode.failuresOnly false = false ∧
    shouldTakeScreenshot ScreenshotMode.failuresOnly true = true ∧
    shouldTakeScreenshot ScreenshotMode.enabled false = true ∧
    shouldTakeScreenshot ScreenshotMode.enabled true = true := by
  decide

/-- Claim C3 as stated fails on the cited `authCheck` fixture
(`src/src/fixtures.ts`): on a completed navigation whose final URL contains
neither `/signin` nor `/sign_in` but whose response has HTTP status 500 — or
is missing — `authCheck` returns false, although the claimed biconditional
(authenticated iff the URL is clean) requires true. -/
theorem auth_check_status_counterexample :
    authCheck (some (some 500, "https://www.powr.io/users/me")) = false ∧
    authCheck (some (none, "https://www.powr.io/users/me")) = false ∧
    jsIncludes "https://www.powr.io/users/me" "/signin" = false ∧
    jsIncludes "https://www.powr.io/users/me" "/sign_in" = false := by
  refine ⟨by decide, rfl, by decide, by decide⟩

/-- Claim C3 amended: `verifyAuthentication` (`src/utils/auth-helper.ts`), the
probe that navigates and allows time for redirects, reports authenticated if
and only if the resulting URL contains neither `/signin` nor `/sign_in`, and
returns false instead of propagating when navigation or the probe throws; the
`authCheck` fixture (`src/src/fixtures.ts`) additionally requires a present
response with non-zero HTTP status below 400 before it accepts a clean URL,
and it too returns false instead of propagating when navigation throws. -/
theorem authentication_check_url_and_status :
    (∀ url : String,
      verifyAuthentication (some url) = true ↔
        jsIncludes url "/signin" = false ∧ jsIncludes url "/sign_in" = false) ∧
    verifyAuthentication none = false ∧
    (∀ (status : Option Nat) (url : String),
      authCheck (some (status, url)) = true ↔
        (∃ s, status = some s ∧ s ≠ 0 ∧ s < 400) ∧
          jsIncludes url "/signin" = false ∧ jsIncludes url "/sign_in" = false) ∧
    authCheck none = false := by
  refine ⟨fun url => ?_, rfl, fun status url => ?_, rfl⟩
  · simp [verifyAuthentication]
  · cases status with
    | none => simp [authCheck]
    | some s => simp [authCheck, and_assoc]

/-- Witness for the amended C3: a clean URL is accepted by
`verifyAuthentication`, and by `authCheck` when the status is 200. -/
theorem authentication_check_url_and_status_witness :
    verifyAuthentication (some "https://www.powr.io/users/me") = true ∧
    authCheck (some (some 200, "https://www.powr.io/users/me")) = true := by
  constructor
  · exact (authentication_check_url_and_status.1 "https://www.powr.io/users/me").mpr
      (by decide)
  · exact ((authentication_check_url_and_status.2.2.1 (some 200)
      "https://www.powr.io/users/me").mpr
      ⟨⟨200, rfl, by decide, by decide⟩, by decide, by decide⟩)

/-- Claim C4: when a stored session file exists but its verification probe
fails, `ensureAuthenticated` never reports success from the stored session:
the credential login flow runs, and the boolean result is exactly the login
outcome (the post-login double check is only logged). -/
theorem ensureAuthenticated_stale_session (e : AuthEnv)
    (h1 : e.hasStored = true) (h2 : e.storedVerify = false) :
    (ensureAuthenticated e).1 = e.loginResult ∧
    AuthStep.attemptedLogin ∈ (ensureAuthenticated e).2 := by
  cases hl : e.loginResult <;>
    simp [ensureAuthenticated, loginAndFinish, h1, h2, hl]

/-- Witness for C4: stale stored session, successful fallback login. -/
theorem ensureAuthenticated_stale_session_witness :
    (ensureAuthenticated ⟨true, false, true, false⟩).1 = true ∧
    AuthStep.attemptedLogin ∈ (ensureAuthenticated ⟨true, false, true, false⟩).2 :=
  ensureAuthenticated_stale_session ⟨true, false, true, false⟩ rfl rfl

/-- Claim C5: in the global-setup login orchestration, a failed login with a
detected CAPTCHA blocks for exactly the configured manual-wait duration and
then re-verifies, succeeding exactly when the re-verification succeeds and
throwing otherwise; a failed login without a CAPTCHA throws immediately, with
no manual wait. -/
theorem globalSetup_captcha_flow (e : GlobalSetupEnv)
    (h : e.loginSuccess = false) :
    (e.captchaVisible = true →
      (globalSetupLoginPhase e).2 = e.captchaWaitTimeout ∧
      ((globalSetupLoginPhase e).1 = Except.ok () ↔ e.postWaitLoggedIn = true)) ∧
    (e.captchaVisible = false →
      (globalSetupLoginPhase e).2 = 0 ∧
      ∃ msg, (globalSetupLoginPhase e).1 = Except.error msg) := by
  cases hc : e.captchaVisible <;> cases hv : e.postWaitLoggedIn <;>
    simp [globalSetupLoginPhase, h, hc, hv]

/-- Witness for C5: CAPTCHA detected (wait equals the configured duration) and
no CAPTCHA detected (no wait). -/
theorem globalSetup_captcha_flow_witness :
    (globalSetupLoginPhase ⟨false, true, false, 60000⟩).2 = 60000 ∧
    (globalSetupLoginPhase ⟨false, false, false, 60000⟩).2 = 0 := by
  refine ⟨?_, ?_⟩
  · exact ((globalSetup_captcha_flow ⟨false, true, false, 60000⟩ rfl).1 rfl).1
  · exact ((globalSetup_captcha_flow ⟨false, false, false, 60000⟩ rfl).2 rfl).1

/-- Claim C1: the pricing tiers are tried in strict priority order: when the
structured tier extracts at least one entry, the section-based and text-based
tiers are never invoked and the structured entries are the result; the
text-based tier is invoked exactly when the structured and section tiers both
produced zero entries; and when all three tiers produce zero entries the call
returns the empty list (a total return, not a throw). -/
theorem pricing_fallback_tier_priority (cardCandidates : List (List Card))
    (sectionResults textResults : List PricingEntry) :
    (getStructuredPricingData cardCandidates ≠ [] →
      getSocialFeedPricingWithFallbacks cardCandidates sectionResults textResults =
        (getStructuredPricingData cardCandidates, [Tier.structured])) ∧
    (Tier.textBased ∈
        (getSocialFeedPricingWithFallbacks cardCandidates sectionResults textResults).2 ↔
      getStructuredPricingData cardCandidates = [] ∧ sectionResults = []) ∧
    (getStructuredPricingData cardCandidates = [] → sectionResults = [] →
      textResults = [] →
      (getSocialFeedPricingWithFallbacks cardCandidates sectionResults textResults).1 =
        []) := by
  cases hs : getStructuredPricingData cardCandidates <;>
    cases hsec : sectionResults <;> cases htext : textResults <;>
      simp [getSocialFeedPricingWithFallbacks, hs]

/-- Witness for C1: a structured hit short-circuits the cascade even though
the section tier would have produced an entry. -/
theorem pricing_fallback_tier_priority_witness :
    getSocialFeedPricingWithFallbacks
        [[⟨[some "Pro"], [some "$12"], [some ".14"]⟩]]
        [⟨"Starter", "$4.94"⟩] [] =
      ([⟨"Pro", "$12.14"⟩], [Tier.structured]) := by
  have h :=
    (pricing_fallback_tier_priority [[⟨[some "Pro"], [some "$12"], [some ".14"]⟩]]
      [⟨"Starter", "$4.94"⟩] []).1 (by decide)
  exact h.trans (by decide)

/-- Claim C2 as stated fails on the source: in the candidate list
`[A, B, C]` below, `A` matches nothing and `B` is the first selector with a
matching element (one card), yet that card extracts no `{name, price}` entry,
so the loop goes on to `C`: the output is the entry extracted from `C`, not
the (empty) result set of `B`, changing `C` changes the output, and the
attempt count is 3 — the loop attempts `C` even though `B` matched. -/
theorem structured_pricing_first_match_counterexample :
    ([(⟨[some " "], [some "$9.99"], []⟩ : Card)].length > 0) ∧
    [(⟨[some " "], [some "$9.99"], []⟩ : Card)].filterMap extractCard = [] ∧
    getStructuredPricingData
        [[], [⟨[some " "], [some "$9.99"], []⟩],
          [⟨[some "Pro"], [some "$12"], [some ".14"]⟩]] =
      [⟨"Pro", "$12.14"⟩] ∧
    getStructuredPricingData [[], [⟨[some " "], [some "$9.99"], []⟩], []] = [] ∧
    (getStructuredPricingDataT
        [[], [⟨[some " "], [some "$9.99"], []⟩],
          [⟨[some "Pro"], [some "$12"], [some ".14"]⟩]]).2 = 3 := by
  decide

/-- The instrumented structured extraction computes the same result list as
the plain one. -/
theorem getStructuredPricingDataTFst (ls : List (List Card)) :
    (getStructuredPricingDataT ls).1 = getStructuredPricingData ls := by
  induction ls with
  | nil => rfl
  | cons cards rest ih =>
    by_cases hlen : cards.length > 0
    · by_cases hext : (cards.filterMap extractCard).length > 0
      · simp [getStructuredPricingDataT, getStructuredPricingData, hlen, hext]
      · simp [getStructuredPricingDataT, getStructuredPricingData, hlen, hext, ih]
    · simp [getStructuredPricingDataT, getStructuredPricingData, hlen, ih]

/-- Claim C2 amended: the locator adopts the first candidate selector whose
matched cards yield at least one EXTRACTED entry; once such a candidate is
found the result is that extraction and no later candidate selector is
attempted (the attempt count is exactly the adopted candidate's position); a
candidate that matches elements but extracts nothing is skipped; and when all
candidates extract nothing, the operation returns the empty result set rather
than throwing. -/
theorem structured_pricing_first_productive_candidate :
    (∀ (pre : List (List Card)) (cards : List Card) (rest : List (List Card)),
      (∀ l ∈ pre, l.filterMap extractCard = []) →
      cards.filterMap extractCard ≠ [] →
      getStructuredPricingData (pre ++ cards :: rest) =
        cards.filterMap extractCard) ∧
    (∀ (pre : List (List Card)) (cards : List Card) (rest : List (List Card)),
      (∀ l ∈ pre, l.filterMap extractCard = []) →
      cards.filterMap extractCard ≠ [] →
      (getStructuredPricingDataT (pre ++ cards :: rest)).2 = pre.length + 1) ∧
    (∀ ls : List (List Card),
      (∀ l ∈ ls, l.filterMap extractCard = []) →
      getStructuredPricingData ls = []) := by
  refine ⟨?_, ?_, ?_⟩
  · intro pre
    induction pre with
    | nil =>
      intro cards rest _ hcards
      have hne : cards ≠ [] := by
        intro h
        exact hcards (by simp [h])
      have hlen : cards.length > 0 := List.length_pos.mpr hne
      have hext : (cards.filterMap extractCard).length > 0 :=
        List.length_pos.mpr hcards
      simp [getStructuredPricingData, hlen, hext]
    | cons l pre ih =>
      intro cards rest hpre hcards
      have hl : l.filterMap extractCard = [] := hpre l (by simp)
      have hrec := ih cards rest (fun x hx => hpre x (by simp [hx])) hcards
      by_cases hlen : l.length > 0
      · simpa [getStructuredPricingData, hlen, hl] using hrec
      · simpa [getStructuredPricingData, hlen] using hrec
  · intro pre
    induction pre with
    | nil =>
      intro cards rest _ hcards
      have hne : cards ≠ [] := fun h => hcards (by simp [h])
      have hlen : cards.length > 0 := List.length_pos.mpr hne
      have hext : (cards.filterMap extractCard).length > 0 :=
        List.length_pos.mpr hcards
      simp [getStructuredPricingDataT, hlen, hext]
    | cons l pre ih =>
      intro cards rest hpre hcards
      have hl : l.filterMap extractCard = [] := hpre l (by simp)
      have hrec := ih cards rest (fun x hx => hpre x (by simp [hx])) hcards
      by_cases hlen : l.length > 0
      · simp [getStructuredPricingDataT, hlen, hl, hrec]
      · simp [getStructuredPricingDataT, hlen, hrec]
  · intro ls
    induction ls with
    | nil => intro _; rfl
    | cons l ls ih =>
      intro h
      have hl : l.filterMap extractCard = [] := h l (by simp)
      have hrec := ih (fun x hx => h x (by simp [hx]))
      by_cases hlen : l.length > 0
      · simpa [getStructuredPricingData, hlen, hl] using hrec
      · simpa [getStructuredPricingData, hlen] using hrec

/-- Witness for the amended C2: two unproductive candidates (one of which
matches an element), then a productive one whose extraction is adopted with
exactly three selectors attempted — the later candidate is never attempted —
and an all-unproductive list yielding `[]`. -/
theorem structured_pricing_first_productive_candidate_witness :
    getStructuredPricingData
        ([[], [⟨[some " "], [some "$9.99"], []⟩]] ++
          [(⟨[some "Pro"], [some "$12"], [some ".14"]⟩ : Card)] ::
            [[⟨[some "Zed"], [some "$1"], []⟩]]) =
      [⟨"Pro", "$12.14"⟩] ∧
    (getStructuredPricingDataT
        ([[], [⟨[some " "], [some "$9.99"], []⟩]] ++
          [(⟨[some "Pro"], [some "$12"], [some ".14"]⟩ : Card)] ::
            [[⟨[some "Zed"], [some "$1"], []⟩]])).2 = 3 ∧
    getStructuredPricingData [[], [⟨[some " "], [some "$9.99"], []⟩]] = [] := by
  refine ⟨?_, ?_, ?_⟩
  · exact (structured_pricing_first_productive_candidate.1
      [[], [⟨[some " "], [some "$9.99"], []⟩]]
      [⟨[some "Pro"], [some "$12"], [some ".14"]⟩]
      [[⟨[some "Zed"], [some "$1"], []⟩]] (by decide) (by decide)).trans (by decide)
  · exact (structured_pricing_first_productive_candidate.2.1
      [[], [⟨[some " "], [some "$9.99"], []⟩]]
      [⟨[some "Pro"], [some "$12"], [some ".14"]⟩]
      [[⟨[some "Zed"], [some "$1"], []⟩]] (by decide) (by decide)).trans (by decide)
  · exact structured_pricing_first_productive_candidate.2.2
      [[], [⟨[some " "], [some "$9.99"], []⟩]] (by decide)

/-- Claim C7 as stated fails on the legacy copy: `getScreenshotMode` in
`src/utils/screenshot-utils.ts` re-reads the environment variable on every
call (there is no cache), so the second call of a run returns a different
value after the variable changes. -/
theorem getScreenshotMode_legacy_counterexample :
    runScreenshotModeCallsLegacy [some "disabled", some "enabled"] =
      [ScreenshotMode.disabled, ScreenshotMode.enabled] ∧
    ScreenshotMode.disabled ≠ ScreenshotMode.enabled := by
  decide

/-- Every later call of the cached implementation replays the cached value. -/
theorem runScreenshotModeCallsCachedEq (m : ScreenshotMode)
    (es : List (Option String)) :
    runScreenshotModeCalls (some m) es = List.replicate es.length m := by
  induction es with
  | nil => rfl
  | cons e es ih =>
    simp [runScreenshotModeCalls, getScreenshotModeCached, ih, List.replicate_succ]

/-- Claim C7 amended: the CURRENT `getScreenshotMode`
(`src/src/utils/screenshot-utils.ts`) caches the mode at the first call, so
every call of a run returns the value parsed from the environment of the
first call, whatever the variable changes to afterwards; an unset variable
and an unrecognised value both parse to `enabled`. (The legacy copy in
`src/utils/screenshot-utils.ts` re-reads the environment on every call.) -/
theorem getScreenshotMode_cached_immutable :
    (∀ (e : Option String) (es : List (Option String)),
      runScreenshotModeCalls none (e :: es) =
        List.replicate (es.length + 1) (parseScreenshotMode e)) ∧
    parseScreenshotMode none = ScreenshotMode.enabled ∧
    (∀ s : String, jsToLower s ≠ "disabled" → jsToLower s ≠ "failures_only" →
      jsToLower s ≠ "enabled" → parseScreenshotMode (some s) = ScreenshotMode.enabled) := by
  refine ⟨fun e es => ?_, rfl, fun s h1 h2 h3 => ?_⟩
  · simp [runScreenshotModeCalls, getScreenshotModeCached,
      runScreenshotModeCallsCachedEq, List.replicate_succ]
  · simp [parseScreenshotMode, h1, h2, h3]

/-- Witness for the amended C7: the cached run pins the first value even
though the environment changes, and a bogus value parses to `enabled`. -/
theorem getScreenshotMode_cached_immutable_witness :
    runScreenshotModeCalls none [some "disabled", some "enabled"] =
      [ScreenshotMode.disabled, ScreenshotMode.disabled] ∧
    parseScreenshotMode (some "bogus") = ScreenshotMode.enabled := by
  constructor
  · exact (getScreenshotMode_cached_immutable.1 (some "disabled")
      [some "enabled"]).trans (by decide)
  · exact getScreenshotMode_cached_immutable.2.2 "bogus"
      (by decide) (by decide) (by decide)

/-- Claim C8 as stated fails on the legacy copy: `takeScreenshot` in
`src/utils/screenshot-utils.ts` has no try/catch around `page.screenshot`, so
a throwing capture propagates to the caller instead of being logged and
turned into `undefined`. -/
theorem takeScreenshot_legacy_counterexample :
    (takeScreenshotLegacy ScreenshotMode.enabled false "screenshots/a.png"
        (Except.error "boom")).result = Except.error "boom" ∧
    (takeScreenshotLegacy ScreenshotMode.enabled false "screenshots/a.png"
        (Except.error "boom")).captureInvoked = true := by
  exact ⟨rfl, rfl⟩

/-- Claim C8 amended: in the CURRENT `takeScreenshot`
(`src/src/utils/screenshot-utils.ts`) a throwing capture primitive is caught,
logged, and turned into an `undefined` return, so the error never propagates;
and in both copies, whenever `shouldTakeScreenshot` is false the call returns
`undefined` without invoking the capture primitive at all. (The legacy copy
propagates capture errors, see the counterexample.) -/
theorem takeScreenshot_error_handling :
    (∀ (mode : ScreenshotMode) (isFailure : Bool) (p msg : String),
      (takeScreenshot mode isFailure (some p) (Except.error msg)).result =
        Except.ok none ∧
      (shouldTakeScreenshot mode isFailure = true →
        (takeScreenshot mode isFailure (some p) (Except.error msg)).errorLogged =
          true)) ∧
    (∀ (mode : ScreenshotMode) (isFailure : Bool) (genPath : Option String)
        (capture : Except String Unit),
      shouldTakeScreenshot mode isFailure = false →
      (takeScreenshot mode isFailure genPath capture).captureInvoked = false ∧
      (takeScreenshot mode isFailure genPath capture).result = Except.ok none) ∧
    (∀ (mode : ScreenshotMode) (isFailure : Bool) (generated : String)
        (capture : Except String Unit),
      shouldTakeScreenshot mode isFailure = false →
      (takeScreenshotLegacy mode isFailure generated capture).captureInvoked =
        false ∧
      (takeScreenshotLegacy mode isFailure generated capture).result =
        Except.ok none) := by
  refine ⟨fun mode isFailure p msg => ?_, fun mode isFailure genPath capture h => ?_,
    fun mode isFailure generated capture h => ?_⟩
  · cases hm : shouldTakeScreenshot mode isFailure <;> simp [takeScreenshot, hm]
  · simp [takeScreenshot, h]
  · simp [takeScreenshotLegacy, getScreenshotPathLegacyGate, h]

/-- Witness for the amended C8 at concrete inputs. -/
theorem takeScreenshot_error_handling_witness :
    (takeScreenshot ScreenshotMode.enabled false (some "screenshots/a.png")
        (Except.error "boom")).result = Except.ok none ∧
    (takeScreenshot ScreenshotMode.disabled false (some "screenshots/a.png")
        (Except.ok ())).captureInvoked = false ∧
    (takeScreenshotLegacy ScreenshotMode.disabled false "screenshots/a.png"
        (Except.ok ())).captureInvoked = false := by
  refine ⟨?_, ?_, ?_⟩
  · exact (takeScreenshot_error_handling.1 ScreenshotMode.enabled false
      "screenshots/a.png" "boom").1
  · exact (takeScreenshot_error_handling.2.1 ScreenshotMode.disabled false
      (some "screenshots/a.png") (Except.ok ()) rfl).1
  · exact (takeScreenshot_error_handling.2.2 ScreenshotMode.disabled false
      "screenshots/a.png" (Except.ok ()) rfl).1

/-- The timestamp component determines the produced path: same working
directory and base name, different sanitised timestamps, different paths. -/
theorem generateScreenshotPathTsInj (cwd base ts1 ts2 : String)
    (h : generateScreenshotPath cwd base ts1 = generateScreenshotPath cwd base ts2) :
    sanitizeTimestamp ts1 = sanitizeTimestamp ts2 := by
  apply strOfDataEq
  have hd := congrArg String.data h
  simp only [generateScreenshotPath, String.data_append, List.append_assoc] at hd
  exact List.append_cancel_right
    (List.append_cancel_left (List.append_cancel_left (List.append_cancel_left
      (List.append_cancel_left (List.append_cancel_left hd)))))

/-- Claim C9: every produced path is the fixed `screenshots` directory entry
built from the sanitised base name, a dash, the sanitised ISO timestamp and
the original (or defaulted `.png`) extension; sanitised names only contain
`[a-zA-Z0-9_-]`; and two calls with `login-error.png` and different (sanitised)
timestamps produce two distinct paths, both ending in `.png`. -/
theorem generateScreenshotPath_shape :
    (∀ cwd base ts : String,
      generateScreenshotPath cwd base ts =
        cwd ++ "/screenshots" ++ "/" ++
          (sanitizeBaseName (jsBasenameNoExt base) ++ "-" ++ sanitizeTimestamp ts ++
            (if jsExtname base = "" then ".png" else jsExtname base))) ∧
    (∀ s : String, ∀ c ∈ (sanitizeBaseName s).data, isSafeNameChar c = true) ∧
    (∀ cwd ts1 ts2 : String,
      sanitizeTimestamp ts1 ≠ sanitizeTimestamp ts2 →
      generateScreenshotPath cwd "login-error.png" ts1 ≠
        generateScreenshotPath cwd "login-error.png" ts2) ∧
    (∀ cwd ts : String, ∃ stem : String,
      generateScreenshotPath cwd "login-error.png" ts = stem ++ ".png") := by
  refine ⟨fun cwd base ts => rfl, fun s c hc => ?_, fun cwd ts1 ts2 hne h => ?_,
    fun cwd ts => ?_⟩
  · simp only [sanitizeBaseName, List.mem_map] at hc
    obtain ⟨a, _, ha⟩ := hc
    by_cases hsafe : isSafeNameChar a = true
    · rw [← ha, if_pos hsafe]; exact hsafe
    · rw [← ha, if_neg hsafe]; decide
  · exact hne (generateScreenshotPathTsInj cwd "login-error.png" ts1 ts2 h)
  · refine ⟨cwd ++ "/screenshots" ++ "/" ++
      (sanitizeBaseName (jsBasenameNoExt "login-error.png") ++ "-" ++
        sanitizeTimestamp ts), ?_⟩
    apply strOfDataEq
    have hext : jsExtname "login-error.png" = ".png" := by decide
    simp [generateScreenshotPath, hext, String.data_append, List.append_assoc]

/-- Witness for C9: two concrete same-second timestamps differing in the
millisecond field give distinct paths. -/
theorem generateScreenshotPath_shape_witness :
    generateScreenshotPath "/proj" "login-error.png" "2025-01-01T00:00:00.000Z" ≠
      generateScreenshotPath "/proj" "login-error.png" "2025-01-01T00:00:00.001Z" := by
  exact generateScreenshotPath_shape.2.2.1 "/proj"
    "2025-01-01T00:00:00.000Z" "2025-01-01T00:00:00.001Z" (by decide)

/-- Claim C9 as stated fails on the legacy copy: `getScreenshotPath` in
`src/utils/screenshot-utils.ts` only strips the extension and never sanitises
the base name, so the space and the `!` of the input survive into the
produced path (a character the sanitised alphabet excludes). -/
theorem screenshot_path_legacy_counterexample :
    getScreenshotPathLegacyPath "/proj" "login error!.png"
        "2025-01-01T00:00:00.000Z" =
      "/proj/screenshots/login error!-2025-01-01T00-00-00-000Z.png" ∧
    ' ' ∈ ("/proj/screenshots/login error!-2025-01-01T00-00-00-000Z.png").data ∧
    isSafeNameChar ' ' = false := by
  refine ⟨by decide, by decide, by decide⟩

/-- Claim C10 as stated fails: `hexToRgb` uses `hex.replace('#', '')`, and a
JS `replace` with a string pattern removes the FIRST occurrence of `#`
anywhere — not only a leading one. On `"abc#def"` the source parses the
remaining six hex digits while the leading-strip reading of the claim leaves
a 7-character string and yields black. -/
theorem hexToRgb_counterexample :
    hexToRgb "abc#def" = "rgb(171, 205, 239)" ∧
    hexToRgbClaim "abc#def" = "rgb(0, 0, 0)" ∧
    ("rgb(171, 205, 239)" : String) ≠ "rgb(0, 0, 0)" := by
  refine ⟨by decide, by decide, by decide⟩

/-- `parseInt(s, 16)` on a string made of hex digits returns their value
(taking the whole string: no `0x` prefix can occur among hex digits). -/
theorem jsParseIntHexAllHex (cs : List Char) (hne : cs ≠ [])
    (hhex : ∀ c ∈ cs, isHexDigit c = true) :
    jsParseIntHex (String.mk cs) = some (hexListToNat cs) := by
  have hdata : (String.mk cs).data = cs := rfl
  have htake : cs.takeWhile isHexDigit = cs := takeWhileOfAll cs hhex
  match cs, hne with
  | [c], _ =>
    simp only [jsParseIntHex, hdata]
    rw [htake]
    simp
  | c0 :: c1 :: rest, _ =>
    have h1 : isHexDigit c1 = true := hhex c1 (by simp)
    have hx : ¬(c0 = '0' ∧ (c1 = 'x' ∨ c1 = 'X')) := by
      rintro ⟨_, hc1 | hc1⟩ <;> rw [hc1] at h1 <;> exact absurd h1 (by decide)
    simp only [jsParseIntHex, hdata, if_neg hx]
    rw [htake]
    have : ¬(c0 :: c1 :: rest).isEmpty = true := by simp
    simp

/-- Claim C10 amended: `hexToRgb` is total on strings; it removes the first
`#` occurrence (for well-formed inputs, the leading one), doubles each
character of a 3-character result, and for a resulting 6-character string of
hex digits returns `rgb(r, g, b)` with the three byte values of the 24-bit
integer; every other resulting length yields `rgb(0, 0, 0)`. -/
theorem hexToRgb_behaviour (s : String) :
    ((expand3 (removeFirstHash s.data)).length ≠ 6 →
      hexToRgb s = "rgb(0, 0, 0)") ∧
    ((expand3 (removeFirstHash s.data)).length = 6 →
      (∀ c ∈ expand3 (removeFirstHash s.data), isHexDigit c = true) →
      hexToRgb s =
        "rgb(" ++
          toString (hexListToNat (expand3 (removeFirstHash s.data)) / 65536 % 256) ++
          ", " ++
          toString (hexListToNat (expand3 (removeFirstHash s.data)) / 256 % 256) ++
          ", " ++
          toString (hexListToNat (expand3 (removeFirstHash s.data)) % 256) ++ ")") := by
  constructor
  · intro hlen
    simp [hexToRgb, hlen]
  · intro hlen hhex
    have hne : expand3 (removeFirstHash s.data) ≠ [] := by
      intro h
      rw [h] at hlen
      exact absurd hlen (by decide)
    have hparse := jsParseIntHexAllHex (expand3 (removeFirstHash s.data)) hne hhex
    simp [hexToRgb, hlen, hparse]

/-- Witness for the amended C10 at the test colour of the suite. -/
theorem hexToRgb_behaviour_witness :
    hexToRgb "#2196F3" = "rgb(33, 150, 243)" := by
  have h := (hexToRgb_behaviour "#2196F3").2 (by decide) (by decide)
  exact h.trans (by decide)

end PowrSuite
